import Mathlib

/-!
Verification development for the `clawd-reachy-mini` repository.

The development shallowly embeds the Gateway protocol handler
(`src/clawd_reachy_mini/gateway.py`, class `GatewayClient`) and the robot
bridge (`action-skill/src/clawd_reachy_mini/bridge.py`, class `ReachyBridge`).

Modelling conventions:
* JSON values (Python dicts decoded by `json.loads`) are the inductive `JVal`.
  `dict.get(k, d)` on a non-dict raises `AttributeError`; this is modelled by
  `JVal.pyGet` returning `Except Unit JVal`, and every method that can raise an
  uncaught Python exception returns `Except Unit _` (the listener's outer
  `except Exception` treats all uncaught exceptions alike).
* Python truthiness (`if msg_id `, `x or y`) is modelled by `JVal.truthy`.
* `asyncio.Future` / `asyncio.Queue` response handlers are the inductive
  `Handler`; `Future.set_result` / `set_exception` on an already-completed
  future raises `InvalidStateError`, modelled by `throw`.
* `uuid.uuid4()` is modelled as a fresh identifier drawn from a counter
  (`ClientState.nextId`); the only properties used are that it is a string.
* `str(x)` / `repr(x)` renderings of Python values are modelled by
  `JVal.pyStr` / `JVal.pyRepr` (string quoting style is immaterial to the
  specification, which only speaks of "a string rendering").
* Wall-clock time is abstracted: `sendMessageFinish` describes the moment
  `asyncio.wait_for(response_future, timeout=120.0)` completes, i.e. either
  the future is already resolved/rejected, or the 120 s deadline has passed
  with the future still pending (`asyncio.TimeoutError`).
* Floating-point angles in the bridge are modelled by `Rat`; the claims only
  involve order comparisons (`max`/`min`), which floats decide exactly.
-/

/-- A decoded JSON value, as produced by `json.loads`. -/
inductive JVal where
  | jnull : JVal
  | jbool : Bool → JVal
  | jnum : Int → JVal
  | jstr : String → JVal
  | jobj : List (String × JVal) → JVal
  | jarr : List JVal → JVal

namespace JVal

/-- Python truthiness of a JSON value (`bool(x)`). -/
def truthy : JVal → Bool
  | .jnull => false
  | .jbool b => b
  | .jnum n => n != 0
  | .jstr s => s != ""
  | .jobj fs => !fs.isEmpty
  | .jarr xs => !xs.isEmpty

/-- Whether a decoded JSON value is an object (a Python dict). -/
def isObj : JVal → Bool
  | .jobj _ => true
  | _ => false

/-- Whether the Python value behind a decoded JSON value is unhashable
(lists and dicts are; strings, numbers, booleans and `None` are not). -/
def unhashable : JVal → Bool
  | .jobj _ => true
  | .jarr _ => true
  | _ => false

/-- Python `x == "lit"` where `x` is a decoded JSON value: true exactly when
`x` is that string. -/
def eqStr : JVal → String → Bool
  | .jstr s, t => s == t
  | _, _ => false

/-- Python `x.get(k, d)`: field lookup with default on a dict; raises
`AttributeError` on any non-dict value. -/
def pyGet : JVal → String → JVal → Except Unit JVal
  | .jobj fs, k, d => .ok ((fs.lookup k).getD d)
  | _, _, _ => .error ()

/-- Python `x or y` on decoded values. -/
def pyOr (a b : JVal) : JVal := if a.truthy then a else b

mutual

/-- Python `repr` of a decoded JSON value (as used inside container
renderings); quoting style is immaterial to the properties proved. -/
def pyRepr : JVal → String
  | .jnull => "None"
  | .jbool true => "True"
  | .jbool false => "False"
  | .jnum n => toString n
  | .jstr s => "\x22" ++ s ++ "\x22"
  | .jobj fs => "\x7b" ++ pyReprFields fs ++ "\x7d"
  | .jarr xs => "[" ++ pyReprElems xs ++ "]"

/-- Comma-separated rendering of dict entries. -/
def pyReprFields : List (String × JVal) → String
  | [] => ""
  | [(k, v)] => "\x22" ++ k ++ "\x22: " ++ pyRepr v
  | (k, v) :: rest => "\x22" ++ k ++ "\x22: " ++ pyRepr v ++ ", " ++ pyReprFields rest

/-- Comma-separated rendering of list elements. -/
def pyReprElems : List JVal → String
  | [] => ""
  | [v] => pyRepr v
  | v :: rest => pyRepr v ++ ", " ++ pyReprElems rest

end

/-- Python `str` of a decoded JSON value: identity on strings, `repr`-style
on containers. -/
def pyStr : JVal → String
  | .jstr s => s
  | v => pyRepr v

end JVal

/-- State of one pending `asyncio.Future` response handler. -/
inductive FutureState where
  | pending : FutureState
  | resolved : JVal → FutureState
  | rejected : String → FutureState

/-- A value of `GatewayClient._response_handlers`: an `asyncio.Future`
(single-response mode) or an `asyncio.Queue` (streamed mode). Queue items are
`some chunk` for payload chunks and `none` for the `None` end-of-stream
marker. -/
inductive Handler where
  | future : FutureState → Handler
  | queue : List (Option JVal) → Handler

/-- The association list modelling the `self._response_handlers` dict. -/
abbrev Handlers := List (String × Handler)

/-- `dict.pop(k, None)`: remove the entry keyed `k` (dict keys are unique, so
filtering is the same operation). -/
def popHandler (hs : Handlers) (k : String) : Handlers :=
  hs.filter (fun p => p.1 != k)

/-- `d[k] = v` on a dict: overwrite the entry keyed `k`. -/
def setHandler (hs : Handlers) (k : String) (h : Handler) : Handlers :=
  (k, h) :: popHandler hs k

/-- In-place update of the handler stored under `k` (mutating the future or
queue object retrieved from `self._response_handlers[msg_id]`). -/
def updateHandler (hs : Handlers) (k : String) (h : Handler) : Handlers :=
  hs.map (fun p => if p.1 == k then (k, h) else p)

/-- `if msg_id and msg_id in self._response_handlers: handler = ...[msg_id]`:
a falsy identifier short-circuits the `and` (no membership test); for a
truthy identifier the membership test on the string-keyed dict succeeds only
for a string value equal to a key, yields `False` for other hashable values
(numbers, booleans), and raises `TypeError: unhashable type` for a list or
dict identifier — that exception escapes the handler. Returns the matched
key together with its handler. -/
def matchPending (msgId : JVal) (hs : Handlers) : Except Unit (Option (String × Handler)) :=
  if msgId.truthy then
    match msgId with
    | .jstr k => .ok ((hs.lookup k).map (fun h => (k, h)))
    | .jobj _ => .error ()
    | .jarr _ => .error ()
    | _ => .ok none
  else .ok none

/-- `asyncio.Event` objects are `Option Bool`: `none` when the attribute is
still `None`, `some b` with `b` the `is_set()` state otherwise.
`if self._auth_event: self._auth_event.set()` sets the flag when the event
object exists. -/
def setEvent : Option Bool → Option Bool
  | none => none
  | some _ => some true

/-- State of a `GatewayClient` (the fields the protocol handler reads or
writes). `ws` is `self._ws is not None`. -/
structure ClientState where
  connected : Bool
  ws : Bool
  sessionId : String
  gatewayToken : Option String
  authenticated : Bool
  authEvent : Option Bool
  registerEvent : Option Bool
  responseHandlers : Handlers
  nextId : Nat

/-- `uuid.uuid4()` modelled as a fresh identifier from the state counter. -/
def mkId (n : Nat) : String := "uuid-" ++ toString n

/-- `GatewayClient.is_connected`: `self._connected and self._ws is not None`. -/
def isConnected (s : ClientState) : Bool := s.connected && s.ws

/-- The connect request frame built in `_handle_event` for
`connect.challenge` (token is `self.config.gateway_token or ""`). -/
def connectRequest (rid : String) (token : String) : JVal :=
  .jobj [("type", .jstr "req"), ("id", .jstr rid), ("method", .jstr "connect"),
    ("params", .jobj [
      ("minProtocol", .jnum 3),
      ("maxProtocol", .jnum 3),
      ("client", .jobj [("id", .jstr "gateway-client"), ("version", .jstr "0.1.0"),
        ("platform", .jstr "python"), ("mode", .jstr "backend")]),
      ("role", .jstr "operator"),
      ("auth", .jobj [("token", .jstr token)])])]

/-- `self.config.gateway_token or ""`. -/
def tokenOrEmpty : Option String → String
  | none => ""
  | some t => t

/-- `GatewayClient._handle_event`: handshake event dispatch. Returns the new
state and the list of frames passed to `_send_raw`. `_send_raw` raises when
`self._ws` is `None`. -/
def handleEvent (s : ClientState) (eventName : JVal) (data : JVal) :
    Except Unit (ClientState × List JVal) := do
  let payload ← data.pyGet "payload" (.jobj [])
  if eventName.eqStr "connect.challenge" then do
    let _nonce ← payload.pyGet "nonce" (.jstr "")
    let _ts ← payload.pyGet "ts" (.jstr "")
    let req := connectRequest (mkId s.nextId) (tokenOrEmpty s.gatewayToken)
    if s.ws then
      pure ({ s with nextId := s.nextId + 1, authenticated := true,
                     authEvent := setEvent s.authEvent }, [req])
    else throw ()
  else if eventName.eqStr "connect.accepted" then
    pure ({ s with authenticated := true, authEvent := setEvent s.authEvent,
                   registerEvent := setEvent s.registerEvent }, [])
  else if eventName.eqStr "connect.rejected" then
    pure ({ s with authenticated := false, authEvent := setEvent s.authEvent }, [])
  else
    pure (s, [])

/-- `GatewayClient._handle_tool_request`: always replies with the placeholder
"Tool handler not registered" error, echoing the request's `id`. -/
def handleToolRequest (s : ClientState) (data : JVal) :
    Except Unit (ClientState × List JVal) := do
  let _tool ← data.pyGet "tool" .jnull
  let _args ← data.pyGet "arguments" (.jobj [])
  let rid ← data.pyGet "id" .jnull
  if s.ws then
    pure (s, [.jobj [("type", .jstr "tool.response"), ("id", rid),
      ("result", .jobj [("status", .jstr "error"),
        ("message", .jstr "Tool handler not registered")])]])
  else throw ()

/-- `GatewayClient._handle_message`: dispatch of one decoded inbound frame.
Returns the new state and the frames sent. An `Except.error` is an uncaught
Python exception escaping into `_listen` (`AttributeError` from `.get` on a
non-dict, `TypeError` from testing an unhashable identifier for dict
membership, or `InvalidStateError` from completing a done future); in every
such path the exception is raised before any state change or send. -/
def handleMessage (s : ClientState) (data : JVal) :
    Except Unit (ClientState × List JVal) := do
  let msgType ← data.pyGet "type" (.jstr "")
  let replyTo ← data.pyGet "reply_to" .jnull
  let idv ← data.pyGet "id" .jnull
  let msgId := replyTo.pyOr idv
  if msgType.eqStr "event" then do
    let eventName ← data.pyGet "event" (.jstr "")
    handleEvent s eventName data
  else if msgType.eqStr "res" then do
    let ok ← data.pyGet "ok" (.jbool false)
    let payload ← data.pyGet "payload" (.jobj [])
    let error ← data.pyGet "error" .jnull
    if ok.truthy then do
      let payloadType ← payload.pyGet "type" (.jstr "")
      if payloadType.eqStr "hello-ok" then
        pure ({ s with registerEvent := setEvent s.registerEvent }, [])
      else do
        let mp ← matchPending msgId s.responseHandlers
        match mp with
        | some (k, .future .pending) =>
            pure ({ s with responseHandlers :=
              updateHandler s.responseHandlers k (.future (.resolved payload)) }, [])
        | some (_, .future _) => throw ()
        | some (k, .queue items) =>
            pure ({ s with responseHandlers :=
              updateHandler s.responseHandlers k (.queue (items ++ [some payload])) }, [])
        | none => pure (s, [])
    else do
      let mp ← matchPending msgId s.responseHandlers
      match mp with
      | some (k, .future .pending) =>
          pure ({ s with responseHandlers :=
            updateHandler s.responseHandlers k (.future (.rejected (JVal.pyStr error))) }, [])
      | some (_, .future _) => throw ()
      | some (_, .queue _) => pure (s, [])
      | none => pure (s, [])
  else if msgType.eqStr "message.response" then do
    let mp ← matchPending msgId s.responseHandlers
    match mp with
    | some (k, .future .pending) => do
        let content ← data.pyGet "content" (.jstr "")
        pure ({ s with responseHandlers :=
          updateHandler s.responseHandlers k (.future (.resolved content)) }, [])
    | some (_, .future _) => throw ()
    | some (k, .queue items) => do
        let content ← data.pyGet "content" (.jstr "")
        pure ({ s with responseHandlers :=
          updateHandler s.responseHandlers k (.queue (items ++ [some content, none])) }, [])
    | none => pure (s, [])
  else if msgType.eqStr "message.chunk" then do
    let mp ← matchPending msgId s.responseHandlers
    match mp with
    | some (k, .queue items) => do
        let content ← data.pyGet "content" (.jstr "")
        pure ({ s with responseHandlers :=
          updateHandler s.responseHandlers k (.queue (items ++ [some content])) }, [])
    | _ => pure (s, [])
  else if msgType.eqStr "message.end" then do
    let mp ← matchPending msgId s.responseHandlers
    match mp with
    | some (k, .queue items) =>
        pure ({ s with responseHandlers :=
          updateHandler s.responseHandlers k (.queue (items ++ [none])) }, [])
    | _ => pure (s, [])
  else if msgType.eqStr "tool.request" then
    handleToolRequest s data
  else if msgType.eqStr "error" then do
    let mp ← matchPending msgId s.responseHandlers
    match mp with
    | some (k, .future .pending) => do
        let message ← data.pyGet "message" (.jstr "Gateway error")
        pure ({ s with responseHandlers :=
          updateHandler s.responseHandlers k (.future (.rejected (JVal.pyStr message))) }, [])
    | some (_, .future _) => throw ()
    | _ => pure (s, [])
  else
    pure (s, [])

/-- One raw text frame from the websocket: either `json.loads` raises
`JSONDecodeError`, or it yields a decoded value. -/
inductive RawIn where
  | undecodable : RawIn
  | decoded : JVal → RawIn

/-- Whether one iteration of the listener loop continues to the next frame or
leaves the loop (the listener task finishing). -/
inductive StepOutcome where
  | nextFrame : StepOutcome
  | stopped : StepOutcome

/-- One iteration of `GatewayClient._listen`'s loop on one raw frame:
`JSONDecodeError` is caught by the inner handler (log and continue); any
other exception from `_handle_message` escapes to the outer
`except Exception`, which logs, sets `self._connected = False`, and ends the
listener. -/
def listenStep (s : ClientState) (raw : RawIn) : ClientState × List JVal × StepOutcome :=
  match raw with
  | .undecodable => (s, [], .nextFrame)
  | .decoded v =>
      match handleMessage s v with
      | .ok (s1, out) => (s1, out, .nextFrame)
      | .error _ => ({ s with connected := false }, [], .stopped)

/-- The `agent.run` request frame built by `GatewayClient.send_message`
(`if image_path:` is a truthiness test, so an empty path string also omits
the attachments). -/
def agentRunRequest (mid : String) (text : String) (imagePath : Option String) : JVal :=
  .jobj [("type", .jstr "req"), ("id", .jstr mid), ("method", .jstr "agent.run"),
    ("params", .jobj (
      [("prompt", .jstr text), ("session", .jstr "agent:main:reachy-mini"),
       ("stream", .jbool false)] ++
      (match imagePath with
       | some p =>
         if p == "" then []
         else [("attachments", .jarr [.jobj [("type", .jstr "image"), ("path", .jstr p)]])]
       | none => [])))]

/-- First phase of `GatewayClient.send_message`, up to and including
`await self._send_raw(request)`: raises `RuntimeError("Not connected to
Gateway")` when `is_connected` is false (before generating an identifier,
registering a handler, or sending); otherwise registers a pending future
under a fresh identifier and sends the request. Returns the new state, the
identifier, and the sent frame. -/
def sendMessageStart (s : ClientState) (text : String) (imagePath : Option String) :
    Except String (ClientState × String × JVal) :=
  if isConnected s then
    let mid := mkId s.nextId
    .ok ({ s with nextId := s.nextId + 1,
                  responseHandlers := setHandler s.responseHandlers mid (.future .pending) },
         mid, agentRunRequest mid text imagePath)
  else .error "Not connected to Gateway"

/-- Outcome of `await asyncio.wait_for(response_future, timeout=120.0)` as
observed by the caller of `send_message`. -/
inductive SendOutcome where
  | success : JVal → SendOutcome
  | failure : String → SendOutcome
  | timedOut : SendOutcome

/-- `response.get("text", response.get("content", str(response)))` with the
non-dict fallback `str(response)`: the value `send_message` returns from a
resolved payload. -/
def extractPayloadText (response : JVal) : JVal :=
  match response with
  | .jobj fs => (fs.lookup "text").getD ((fs.lookup "content").getD (.jstr (JVal.pyStr (.jobj fs))))
  | v => .jstr (JVal.pyStr v)

/-- Second phase of `GatewayClient.send_message`, at the moment the 120 s
`wait_for` completes: a resolved future yields the extracted text, a rejected
future re-raises the carried error, a still-pending future means
`asyncio.TimeoutError`. In every case the `finally` block executes
`self._response_handlers.pop(message_id, None)`. -/
def sendMessageFinish (s : ClientState) (mid : String) : ClientState × SendOutcome :=
  (⟨{ s with responseHandlers := popHandler s.responseHandlers mid },
    match s.responseHandlers.lookup mid with
    | some (.future (.resolved v)) => .success (extractPayloadText v)
    | some (.future (.rejected e)) => .failure e
    | _ => .timedOut⟩)

/-- First phase of `GatewayClient.stream_message`, up to and including
`await self._send_raw(payload)`: raises `RuntimeError("Not connected to
Gateway")` when `is_connected` is false; otherwise registers an empty chunk
queue under a fresh identifier and sends the `message.send` frame. -/
def streamMessageStart (s : ClientState) (text : String) :
    Except String (ClientState × String × JVal) :=
  if isConnected s then
    let mid := mkId s.nextId
    .ok ({ s with nextId := s.nextId + 1,
                  responseHandlers := setHandler s.responseHandlers mid (.queue []) },
         mid,
         .jobj [("type", .jstr "message.send"), ("id", .jstr mid),
           ("session_id", .jstr s.sessionId), ("channel", .jstr "reachy-mini"),
           ("content", .jstr text), ("stream", .jbool true)])
  else .error "Not connected to Gateway"

/-! ## The robot bridge (`action-skill/src/clawd_reachy_mini/bridge.py`) -/

/-- The fields of `ReachyConfig` that `move_head` reads (defaults from
`action-skill/src/clawd_reachy_mini/config.py`). -/
structure ReachyConfig where
  max_roll : Rat := 30
  max_pitch : Rat := 30
  max_yaw : Rat := 45
  default_duration : Rat := 1

/-- The head pose handed to
`self._mini.goto_target(head=create_head_pose(z=z, roll=roll, ...), duration=dur)`. -/
structure HeadCommand where
  z : Rat
  roll : Rat
  pitch : Rat
  yaw : Rat
  duration : Rat

/-- The dict returned by `ReachyBridge.move_head`. -/
inductive MoveHeadResult where
  | err : String → MoveHeadResult
  | success : Rat → Rat → Rat → Rat → Rat → MoveHeadResult

/-- `max(-limit, min(limit, v))`: the safety clamp applied per axis. -/
def clampTo (limit v : Rat) : Rat := max (-limit) (min limit v)

/-- `duration or self.config.default_duration`: Python truthiness makes a
`0` duration (and `None`) fall back to the configured default. -/
def durationOrDefault (cfg : ReachyConfig) (duration : Option Rat) : Rat :=
  match duration with
  | some d => if d == 0 then cfg.default_duration else d
  | none => cfg.default_duration

/-- `ReachyBridge.move_head`. `connected` is `self.is_connected`; `robotOk`
is whether the SDK calls (`create_head_pose`, `goto_target`) succeed — on
failure the `except` branch returns an error dict. `duration or
self.config.default_duration` uses Python truthiness, so a `0` duration also
falls back to the default. Returns the command issued to the robot (when
reached) and the result dict: on success
`{"status": "success", "position": {"z": z, "roll": roll, ...}, "duration": dur}`
with the clamped angle variables. -/
def move_head (cfg : ReachyConfig) (connected : Bool)
    (z roll pitch yaw : Rat) (duration : Option Rat) (robotOk : Bool) :
    Option HeadCommand × MoveHeadResult :=
  if !connected then (none, .err "Not connected to robot")
  else
    let roll := clampTo cfg.max_roll roll
    let pitch := clampTo cfg.max_pitch pitch
    let yaw := clampTo cfg.max_yaw yaw
    let dur := durationOrDefault cfg duration
    if robotOk then
      (some ⟨z, roll, pitch, yaw, dur⟩, .success z roll pitch yaw dur)
    else (some ⟨z, roll, pitch, yaw, dur⟩, .err "robot error")

/-! ## Shared lemmas and demonstration states -/

/-- Popping a key from the handler map leaves no entry for that key. -/
theorem lookup_popHandler_self (hs : Handlers) (k : String) :
    (popHandler hs k).lookup k = none := by
  induction hs with
  | nil => rfl
  | cons p t ih =>
    simp only [popHandler, List.filter_cons] at ih ⊢
    by_cases h : p.1 = k
    · simpa [h] using ih
    · have hb : (k == p.1) = false := by simp [Ne.symm h]
      simp [h, List.lookup, hb, ih]

/-- Registering a handler makes it the entry found for its key. -/
theorem lookup_setHandler_self (hs : Handlers) (k : String) (h : Handler) :
    (setHandler hs k h).lookup k = some h := by
  simp [setHandler, List.lookup]

/-- A connected client state with a configured token and no pending requests. -/
def demoConnected : ClientState :=
  { connected := true, ws := true, sessionId := "sess", gatewayToken := some "secret-token",
    authenticated := true, authEvent := some true, registerEvent := some true,
    responseHandlers := [], nextId := 0 }

/-- A client that has set up its events but holds no token and is not yet
authenticated (the state in which a challenge arrives). -/
def demoNoToken : ClientState :=
  { connected := true, ws := true, sessionId := "sess", gatewayToken := none,
    authenticated := false, authEvent := some false, registerEvent := some false,
    responseHandlers := [], nextId := 0 }

/-! ## Claim theorems -/

/-- C1: after `send_message` registers a pending request and sends it, (a) the
entry is live and pending; (b) a state `s2` whose entry for the identifier is
still pending at the 120 s deadline gives the caller a timeout failure; (c)
the `finally` block removes the pending entry from any state `s4` whatever
the outcome (success, failure, or timeout), so removal happens exactly once;
(d) in a state `s3` where the entry is gone, a late `res` frame for that
identifier (any `ok` flag, any non-handshake payload) is silently dropped:
no state change, nothing sent, nothing raised. -/
theorem send_message_timeout_contract (s s2 s3 s4 : ClientState) (text : String)
    (imagePath : Option String) (okb : Bool) (pf : List (String × JVal)) (err : JVal)
    (hconn : isConnected s = true)
    (h2 : s2.responseHandlers.lookup (mkId s.nextId) = some (.future .pending))
    (h3 : s3.responseHandlers.lookup (mkId s.nextId) = none)
    (hpt : (((pf.lookup "type").getD (.jstr "")).eqStr "hello-ok") = false) :
    sendMessageStart s text imagePath =
      .ok ({ s with
          nextId := s.nextId + 1
          responseHandlers := setHandler s.responseHandlers (mkId s.nextId) (.future .pending) },
        mkId s.nextId, agentRunRequest (mkId s.nextId) text imagePath) ∧
    (setHandler s.responseHandlers (mkId s.nextId) (.future .pending)).lookup (mkId s.nextId) =
      some (.future .pending) ∧
    (sendMessageFinish s2 (mkId s.nextId)).2 = SendOutcome.timedOut ∧
    ((sendMessageFinish s4 (mkId s.nextId)).1).responseHandlers.lookup (mkId s.nextId) = none ∧
    handleMessage s3 (.jobj [("type", .jstr "res"), ("id", .jstr (mkId s.nextId)),
      ("ok", .jbool okb), ("payload", .jobj pf), ("error", err)]) = .ok (s3, []) := by
  refine ⟨?_, lookup_setHandler_self .., ?_, ?_, ?_⟩
  · simp [sendMessageStart, hconn]
  · simp [sendMessageFinish, h2]
  · simp [sendMessageFinish, lookup_popHandler_self]
  · simp [JVal.eqStr] at hpt
    cases okb <;>
      simp [handleMessage, JVal.pyGet, JVal.eqStr, JVal.pyOr, JVal.truthy,
        matchPending, List.lookup, h3, hpt, Bind.bind, Except.bind, Pure.pure, Except.pure]

/-- A client whose only pending entry is the future registered for the
identifier `uuid-0`, still pending when the timeout fires. -/
def timedOutState : ClientState :=
  { demoConnected with responseHandlers := [("uuid-0", .future .pending)] }

/-- Witness for C1 at concrete states: the fresh identifier is `uuid-0`, and
the frame in part (d) is an ordinary success response. -/
theorem send_message_timeout_contract_witness :
    sendMessageStart demoConnected "ping" none =
      .ok ({ demoConnected with
          nextId := demoConnected.nextId + 1
          responseHandlers := setHandler demoConnected.responseHandlers
            (mkId demoConnected.nextId) (.future .pending) },
        mkId demoConnected.nextId, agentRunRequest (mkId demoConnected.nextId) "ping" none) ∧
    (setHandler demoConnected.responseHandlers (mkId demoConnected.nextId)
      (.future .pending)).lookup (mkId demoConnected.nextId) = some (.future .pending) ∧
    (sendMessageFinish timedOutState (mkId demoConnected.nextId)).2 = SendOutcome.timedOut ∧
    ((sendMessageFinish demoConnected (mkId demoConnected.nextId)).1).responseHandlers.lookup
      (mkId demoConnected.nextId) = none ∧
    handleMessage demoConnected (.jobj [("type", .jstr "res"),
      ("id", .jstr (mkId demoConnected.nextId)), ("ok", .jbool true),
      ("payload", .jobj [("type", .jstr "agent")]), ("error", .jnull)]) =
      .ok (demoConnected, []) :=
  send_message_timeout_contract demoConnected timedOutState demoConnected demoConnected
    "ping" none true [("type", .jstr "agent")] .jnull rfl rfl rfl rfl

/-- The inbound frame carrying a `connect.challenge` event with the given
payload fields. -/
def challengeFrame (pf : List (String × JVal)) : JVal :=
  .jobj [("type", .jstr "event"), ("event", .jstr "connect.challenge"), ("payload", .jobj pf)]

/-- C2: a `connect.challenge` event makes the client send exactly one connect
request frame — carrying protocol bounds 3..3, the fixed client descriptor,
role `operator`, and `auth.token` equal to the configured token or `""` when
none is configured (an absent token does not block the send) — and sets the
authentication-wait event. -/
theorem challenge_sends_one_connect_request (s : ClientState) (pf : List (String × JVal))
    (hws : s.ws = true) (hev : s.authEvent.isSome = true) :
    handleMessage s (challengeFrame pf) =
      .ok ({ s with nextId := s.nextId + 1, authenticated := true, authEvent := some true },
        [connectRequest (mkId s.nextId) (tokenOrEmpty s.gatewayToken)]) := by
  obtain ⟨b, hb⟩ := Option.isSome_iff_exists.mp hev
  simp [handleMessage, challengeFrame, handleEvent, JVal.pyGet, JVal.eqStr, JVal.pyOr,
    JVal.truthy, List.lookup, hws, hb, setEvent, Bind.bind, Except.bind, Pure.pure, Except.pure]

/-- Witness for C2: a challenge handled by a token-less client still sends
the connect request (with an empty token). -/
theorem challenge_sends_one_connect_request_witness :
    handleMessage demoNoToken (challengeFrame [("nonce", .jstr "n"), ("ts", .jstr "t")]) =
      .ok ({ demoNoToken with
          nextId := demoNoToken.nextId + 1
          authenticated := true
          authEvent := some true },
        [connectRequest (mkId demoNoToken.nextId) (tokenOrEmpty demoNoToken.gatewayToken)]) :=
  challenge_sends_one_connect_request demoNoToken [("nonce", .jstr "n"), ("ts", .jstr "t")]
    rfl rfl

/-- The inbound `res` frame acknowledging the handshake (`hello-ok`). -/
def helloOkFrame : JVal :=
  .jobj [("type", .jstr "res"), ("ok", .jbool true), ("payload", .jobj [("type", .jstr "hello-ok")])]

/-- The inbound `connect.accepted` event frame. -/
def acceptedFrame : JVal :=
  .jobj [("type", .jstr "event"), ("event", .jstr "connect.accepted"), ("payload", .jobj [])]

/-- C3 counterexample: a successful `hello-ok` handshake acknowledgment does
NOT mark the session authenticated and does NOT release the
authentication-wait event — it only sets the ready-wait event — refuting the
claim that it releases both waits and marks authenticated. -/
theorem hello_ok_leaves_authentication_unset :
    handleMessage demoNoToken helloOkFrame =
      .ok ({ demoNoToken with registerEvent := some true }, []) ∧
    ({ demoNoToken with registerEvent := some true } : ClientState).authenticated = false ∧
    ({ demoNoToken with registerEvent := some true } : ClientState).authEvent = some false := by
  exact ⟨rfl, rfl, rfl⟩

/-- C3 amended: a `connect.accepted` event marks the session authenticated
and sets both the authentication-wait and ready-wait events; a successful
`hello-ok` acknowledgment sets only the ready-wait event, leaving the
authenticated flag and the authentication-wait event unchanged. -/
theorem accepted_vs_hello_ok_effects (s : ClientState) :
    handleMessage s acceptedFrame =
      .ok ({ s with
          authenticated := true
          authEvent := setEvent s.authEvent
          registerEvent := setEvent s.registerEvent }, []) ∧
    handleMessage s helloOkFrame =
      .ok ({ s with registerEvent := setEvent s.registerEvent }, []) := by
  constructor <;>
    simp [handleMessage, handleEvent, acceptedFrame, helloOkFrame, JVal.pyGet, JVal.eqStr,
      JVal.pyOr, JVal.truthy, List.lookup, Bind.bind, Except.bind, Pure.pure, Except.pure]

/-- C4 counterexample: the frame `42` is valid JSON but malformed as a frame;
handling it raises `AttributeError` out of `_handle_message`, which the
listener's outer `except Exception` turns into ending the listener loop and
setting `connected := false` — refuting "processing any single bad frame
neither terminates the listener nor changes the connected status". -/
theorem bad_json_number_kills_listener :
    listenStep demoConnected (.decoded (.jnum 42)) =
      ({ demoConnected with connected := false }, [], .stopped) ∧
    ({ demoConnected with connected := false } : ClientState).connected ≠
      demoConnected.connected := by
  exact ⟨rfl, by decide⟩

/-- A decoded non-object frame makes `_handle_message` raise (its first
`data.get` call is an `AttributeError`). -/
theorem handleMessage_nonObject (s : ClientState) (v : JVal) (h : v.isObj = false) :
    handleMessage s v = .error () := by
  cases v <;>
    simp_all [JVal.isObj, handleMessage, JVal.pyGet, Bind.bind, Except.bind]

/-- C4 amended: a frame that fails JSON decoding is logged and discarded —
the listener continues and the state (in particular `connected`) is
unchanged; but a frame that decodes to a non-object value raises out of
`_handle_message`, terminating the listener and setting `connected` to
false. -/
theorem listener_malformed_frame_behavior (s : ClientState) (v : JVal)
    (hv : v.isObj = false) :
    listenStep s .undecodable = (s, [], .nextFrame) ∧
    listenStep s (.decoded v) = ({ s with connected := false }, [], .stopped) := by
  refine ⟨rfl, ?_⟩
  simp [listenStep, handleMessage_nonObject s v hv]

/-- Witness for the amended C4 at a concrete state and frame. -/
theorem listener_malformed_frame_behavior_witness :
    listenStep demoNoToken .undecodable = (demoNoToken, [], .nextFrame) ∧
    listenStep demoNoToken (.decoded (.jnum 7)) =
      ({ demoNoToken with connected := false }, [], .stopped) :=
  listener_malformed_frame_behavior demoNoToken (.jnum 7) rfl

/-- The inbound failure response (`ok` false) for identifier `mid` carrying
`err`. -/
def resFailFrame (mid : String) (err : JVal) : JVal :=
  .jobj [("type", .jstr "res"), ("id", .jstr mid), ("ok", .jbool false), ("error", err)]

/-- A client with one streamed-mode pending entry (an empty chunk queue). -/
def streamPendingState : ClientState :=
  { demoConnected with responseHandlers := [("m1", .queue [])] }

/-- A client with one single-mode pending entry (a pending future). -/
def singlePendingState : ClientState :=
  { demoConnected with responseHandlers := [("m1", .future .pending)] }

/-- C5 counterexample: a failure response whose identifier matches a live
streamed-mode entry leaves the chunk queue exactly as it was — no
end-of-stream marker is enqueued — refuting the claim that the stream
receives an end marker. -/
theorem failure_response_leaves_stream_queue_empty :
    handleMessage streamPendingState (resFailFrame "m1" (.jstr "boom")) =
      .ok (streamPendingState, []) ∧
    streamPendingState.responseHandlers.lookup "m1" = some (.queue []) := by
  exact ⟨rfl, rfl⟩

/-- C5 amended: on a failure response (`ok` false) whose identifier matches a
live pending entry, a single-mode waiter (state `s`) is rejected with the
stringified carried error; a streamed-mode queue entry (state `q`) is left
untouched — no end-of-stream marker is enqueued, so the stream can only
terminate through its per-chunk timeout. -/
theorem failure_response_behavior (s q : ClientState) (mid : String) (err : JVal)
    (items : List (Option JVal)) (hmid : mid ≠ "")
    (hs : s.responseHandlers.lookup mid = some (.future .pending))
    (hq : q.responseHandlers.lookup mid = some (.queue items)) :
    handleMessage s (resFailFrame mid err) =
      .ok ({ s with responseHandlers := updateHandler s.responseHandlers mid (.future (.rejected (JVal.pyStr err))) }, []) ∧
    handleMessage q (resFailFrame mid err) = .ok (q, []) := by
  constructor
  · simp [handleMessage, resFailFrame, JVal.pyGet, JVal.eqStr, JVal.pyOr, JVal.truthy,
      matchPending, List.lookup, hs, hmid, Bind.bind, Except.bind, Pure.pure, Except.pure]
  · simp [handleMessage, resFailFrame, JVal.pyGet, JVal.eqStr, JVal.pyOr, JVal.truthy,
      matchPending, List.lookup, hq, hmid, Bind.bind, Except.bind, Pure.pure, Except.pure]

/-- Witness for the amended C5: the single-mode waiter is rejected with the
carried error, the streamed-mode queue stays untouched. -/
theorem failure_response_behavior_witness :
    handleMessage singlePendingState (resFailFrame "m1" (.jstr "boom")) =
      .ok ({ singlePendingState with responseHandlers := updateHandler singlePendingState.responseHandlers "m1" (.future (.rejected (JVal.pyStr (.jstr "boom")))) }, []) ∧
    handleMessage streamPendingState (resFailFrame "m1" (.jstr "boom")) =
      .ok (streamPendingState, []) :=
  failure_response_behavior singlePendingState streamPendingState "m1" (.jstr "boom") []
    (by decide) rfl rfl

/-- C6: a payload that resolves a `send_message` call yields the payload's
`text` field when present (state `s1`); otherwise the `content` field when
present (state `s2`); otherwise the string rendering of the whole payload
(state `s3`) — all three fallback cases hold. -/
theorem send_message_payload_extraction (s1 s2 s3 : ClientState) (mid : String)
    (fs1 fs2 fs3 : List (String × JVal)) (v w : JVal)
    (hr1 : s1.responseHandlers.lookup mid = some (.future (.resolved (.jobj fs1))))
    (ht1 : fs1.lookup "text" = some v)
    (hr2 : s2.responseHandlers.lookup mid = some (.future (.resolved (.jobj fs2))))
    (ht2 : fs2.lookup "text" = none) (hc2 : fs2.lookup "content" = some w)
    (hr3 : s3.responseHandlers.lookup mid = some (.future (.resolved (.jobj fs3))))
    (ht3 : fs3.lookup "text" = none) (hc3 : fs3.lookup "content" = none) :
    (sendMessageFinish s1 mid).2 = .success v ∧
    (sendMessageFinish s2 mid).2 = .success w ∧
    (sendMessageFinish s3 mid).2 = .success (.jstr (JVal.pyStr (.jobj fs3))) := by
  refine ⟨?_, ?_, ?_⟩
  · simp [sendMessageFinish, hr1, extractPayloadText, ht1]
  · simp [sendMessageFinish, hr2, extractPayloadText, ht2, hc2]
  · simp [sendMessageFinish, hr3, extractPayloadText, ht3, hc3]

/-- A client whose single pending entry has been resolved with
`{"text": "pong"}`. -/
def resolvedTextState : ClientState :=
  { demoConnected with
    responseHandlers := [("m1", .future (.resolved (.jobj [("text", .jstr "pong")])))] }

/-- A client whose single pending entry has been resolved with
`{"content": "cc"}` (no `text` field). -/
def resolvedContentState : ClientState :=
  { demoConnected with
    responseHandlers := [("m1", .future (.resolved (.jobj [("content", .jstr "cc")])))] }

/-- A client whose single pending entry has been resolved with `{"x": 1}`
(neither `text` nor `content`). -/
def resolvedPlainState : ClientState :=
  { demoConnected with
    responseHandlers := [("m1", .future (.resolved (.jobj [("x", .jnum 1)])))] }

/-- Witness for C6: the three payloads `{"text": "pong"}`, `{"content": "cc"}`
and `{"x": 1}` yield `"pong"`, `"cc"` and the rendering of the whole payload
respectively. -/
theorem send_message_payload_extraction_witness :
    (sendMessageFinish resolvedTextState "m1").2 = .success (.jstr "pong") ∧
    (sendMessageFinish resolvedContentState "m1").2 = .success (.jstr "cc") ∧
    (sendMessageFinish resolvedPlainState "m1").2 =
      .success (.jstr (JVal.pyStr (.jobj [("x", .jnum 1)]))) :=
  send_message_payload_extraction resolvedTextState resolvedContentState resolvedPlainState
    "m1" [("text", .jstr "pong")] [("content", .jstr "cc")] [("x", .jnum 1)]
    (.jstr "pong") (.jstr "cc") rfl rfl rfl rfl rfl rfl rfl rfl

/-- The inbound `tool.request` frame with the given identifier, tool name and
arguments. -/
def toolRequestFrame (rid tool args : JVal) : JVal :=
  .jobj [("type", .jstr "tool.request"), ("id", rid), ("tool", tool), ("arguments", args)]

/-- The outbound `tool.response` frame carrying the placeholder error for the
given request identifier. -/
def toolErrorResponse (rid : JVal) : JVal :=
  .jobj [("type", .jstr "tool.response"), ("id", rid),
    ("result", .jobj [("status", .jstr "error"),
      ("message", .jstr "Tool handler not registered")])]

/-- C7: every inbound `tool.request` frame produces exactly one outbound
`tool.response` frame echoing the request identifier; since no handler can be
registered, the response always carries the fixed "Tool handler not
registered" error, and the client state is unchanged. -/
theorem tool_request_always_one_response (s : ClientState) (rid tool args : JVal)
    (hws : s.ws = true) :
    handleMessage s (toolRequestFrame rid tool args) = .ok (s, [toolErrorResponse rid]) := by
  simp [handleMessage, handleToolRequest, toolRequestFrame, toolErrorResponse, JVal.pyGet,
    JVal.eqStr, JVal.pyOr, JVal.truthy, List.lookup, hws,
    Bind.bind, Except.bind, Pure.pure, Except.pure]

/-- Witness for C7 at a concrete tool request. -/
theorem tool_request_always_one_response_witness :
    handleMessage demoConnected (toolRequestFrame (.jstr "tool-1") (.jstr "reachy_move_head")
      (.jobj [("pitch", .jnum 10)])) =
      .ok (demoConnected, [toolErrorResponse (.jstr "tool-1")]) :=
  tool_request_always_one_response demoConnected (.jstr "tool-1") (.jstr "reachy_move_head")
    (.jobj [("pitch", .jnum 10)]) rfl

/-- The `res` frame with unknown identifier `zzz` and a `hello-ok` payload. -/
def unknownIdHelloFrame : JVal :=
  .jobj [("type", .jstr "res"), ("id", .jstr "zzz"), ("ok", .jbool true),
    ("payload", .jobj [("type", .jstr "hello-ok")])]

/-- C8 counterexample: a `res` frame whose identifier has no pending entry is
NOT always a no-op — when it carries a `hello-ok` payload it sets the
ready-wait event (session state changes) even though no entry matches its
identifier. -/
theorem unknown_id_hello_ok_mutates_state :
    handleMessage demoNoToken unknownIdHelloFrame =
      .ok ({ demoNoToken with registerEvent := some true }, []) ∧
    demoNoToken.responseHandlers.lookup "zzz" = none ∧
    ({ demoNoToken with registerEvent := some true } : ClientState).registerEvent ≠
      demoNoToken.registerEvent := by
  exact ⟨rfl, rfl, by decide⟩

/-- A truthy list or dict identifier raises `TypeError` at the dict
membership test `msg_id in self._response_handlers`. -/
theorem matchPending_unhashable (hs : Handlers) (v : JVal)
    (hh : v.unhashable = true) (ht : v.truthy = true) :
    matchPending v hs = .error () := by
  cases v <;> simp_all [JVal.unhashable, JVal.truthy, matchPending]

/-- C8 amended: a `res` frame whose identifier has no pending entry is a
raise-free no-op — state and pending map unchanged, nothing sent — unless
(a) it is a successful handshake acknowledgment (`ok` truthy with payload
type `hello-ok`), which sets the ready-wait event regardless of its
identifier, or (b) its identifier is a truthy array or object, whose dict
membership test raises `TypeError` out of the handler, terminating the
listener and marking the client disconnected. -/
theorem res_unknown_id_noop (s : ClientState) (idv okv err badId : JVal)
    (pf : List (String × JVal))
    (hnp : matchPending idv s.responseHandlers = .ok none)
    (hpt : (((pf.lookup "type").getD (.jstr "")).eqStr "hello-ok") = false)
    (hbh : badId.unhashable = true) (hbt : badId.truthy = true) :
    handleMessage s (.jobj [("type", .jstr "res"), ("id", idv), ("ok", okv),
      ("payload", .jobj pf), ("error", err)]) = .ok (s, []) ∧
    handleMessage s (.jobj [("type", .jstr "res"), ("id", badId), ("ok", okv),
      ("payload", .jobj pf), ("error", err)]) = .error () ∧
    listenStep s (.decoded (.jobj [("type", .jstr "res"), ("id", badId), ("ok", okv),
      ("payload", .jobj pf), ("error", err)])) =
      ({ s with connected := false }, [], .stopped) := by
  simp [JVal.eqStr] at hpt
  have hbad : ∀ t : ClientState, matchPending badId t.responseHandlers = .error () :=
    fun t => matchPending_unhashable t.responseHandlers badId hbh hbt
  refine ⟨?_, ?_, ?_⟩
  · cases hok : okv.truthy <;>
      simp [handleMessage, JVal.pyGet, JVal.eqStr, JVal.pyOr, JVal.truthy, hok,
        List.lookup, hnp, hpt, Bind.bind, Except.bind, Pure.pure, Except.pure]
  · cases hok : okv.truthy <;>
      simp [handleMessage, JVal.pyGet, JVal.eqStr, JVal.pyOr, JVal.truthy, hok,
        List.lookup, hbad, hpt, Bind.bind, Except.bind, Pure.pure, Except.pure]
  · have herr : handleMessage s (.jobj [("type", .jstr "res"), ("id", badId), ("ok", okv),
        ("payload", .jobj pf), ("error", err)]) = .error () := by
      cases hok : okv.truthy <;>
        simp [handleMessage, JVal.pyGet, JVal.eqStr, JVal.pyOr, JVal.truthy, hok,
          List.lookup, hbad, hpt, Bind.bind, Except.bind, Pure.pure, Except.pure]
    simp [listenStep, herr]

/-- Witness for the amended C8: an ordinary success response with an unknown
string identifier is silently discarded, while the same frame with the
array identifier `[1]` raises and stops the listener. -/
theorem res_unknown_id_noop_witness :
    handleMessage demoNoToken (.jobj [("type", .jstr "res"), ("id", .jstr "zzz"),
      ("ok", .jbool true), ("payload", .jobj [("type", .jstr "agent")]), ("error", .jnull)]) =
      .ok (demoNoToken, []) ∧
    handleMessage demoNoToken (.jobj [("type", .jstr "res"), ("id", .jarr [.jnum 1]),
      ("ok", .jbool true), ("payload", .jobj [("type", .jstr "agent")]), ("error", .jnull)]) =
      .error () ∧
    listenStep demoNoToken (.decoded (.jobj [("type", .jstr "res"), ("id", .jarr [.jnum 1]),
      ("ok", .jbool true), ("payload", .jobj [("type", .jstr "agent")]), ("error", .jnull)])) =
      ({ demoNoToken with connected := false }, [], .stopped) :=
  res_unknown_id_noop demoNoToken (.jstr "zzz") (.jbool true) .jnull (.jarr [.jnum 1])
    [("type", .jstr "agent")] rfl rfl rfl rfl

/-- The default `ReachyConfig` (limits 30/30/45 degrees). -/
def defaultReachyConfig : ReachyConfig := {}

/-- C9: on a connected bridge with non-negative configured limits,
`move_head` commands the robot with roll, pitch and yaw clamped into
`[-max_roll, max_roll]`, `[-max_pitch, max_pitch]` and `[-max_yaw, max_yaw]`,
the success result reports exactly the clamped angles, and `z` is passed
through unclamped (both the command and the result carry the original `z`). -/
theorem move_head_clamps_angles (cfg : ReachyConfig) (z roll pitch yaw : Rat)
    (duration : Option Rat)
    (hr : 0 ≤ cfg.max_roll) (hp : 0 ≤ cfg.max_pitch) (hy : 0 ≤ cfg.max_yaw) :
    move_head cfg true z roll pitch yaw duration true =
      (some ⟨z, clampTo cfg.max_roll roll, clampTo cfg.max_pitch pitch,
        clampTo cfg.max_yaw yaw, durationOrDefault cfg duration⟩,
       .success z (clampTo cfg.max_roll roll) (clampTo cfg.max_pitch pitch)
         (clampTo cfg.max_yaw yaw) (durationOrDefault cfg duration)) ∧
    -cfg.max_roll ≤ clampTo cfg.max_roll roll ∧ clampTo cfg.max_roll roll ≤ cfg.max_roll ∧
    -cfg.max_pitch ≤ clampTo cfg.max_pitch pitch ∧ clampTo cfg.max_pitch pitch ≤ cfg.max_pitch ∧
    -cfg.max_yaw ≤ clampTo cfg.max_yaw yaw ∧ clampTo cfg.max_yaw yaw ≤ cfg.max_yaw := by
  refine ⟨?_, le_max_left _ _, max_le (by linarith) (min_le_left _ _),
    le_max_left _ _, max_le (by linarith) (min_le_left _ _),
    le_max_left _ _, max_le (by linarith) (min_le_left _ _)⟩
  simp [move_head]

/-- Witness for C9 with the default configuration: a roll of 100 degrees is
clamped while z passes through. -/
theorem move_head_clamps_angles_witness :
    move_head defaultReachyConfig true 10 100 3 2 (some (1/2)) true =
      (some ⟨10, clampTo defaultReachyConfig.max_roll 100,
        clampTo defaultReachyConfig.max_pitch 3, clampTo defaultReachyConfig.max_yaw 2,
        durationOrDefault defaultReachyConfig (some (1/2))⟩,
       .success 10 (clampTo defaultReachyConfig.max_roll 100)
         (clampTo defaultReachyConfig.max_pitch 3) (clampTo defaultReachyConfig.max_yaw 2)
         (durationOrDefault defaultReachyConfig (some (1/2)))) ∧
    -defaultReachyConfig.max_roll ≤ clampTo defaultReachyConfig.max_roll 100 ∧
    clampTo defaultReachyConfig.max_roll 100 ≤ defaultReachyConfig.max_roll ∧
    -defaultReachyConfig.max_pitch ≤ clampTo defaultReachyConfig.max_pitch 3 ∧
    clampTo defaultReachyConfig.max_pitch 3 ≤ defaultReachyConfig.max_pitch ∧
    -defaultReachyConfig.max_yaw ≤ clampTo defaultReachyConfig.max_yaw 2 ∧
    clampTo defaultReachyConfig.max_yaw 2 ≤ defaultReachyConfig.max_yaw :=
  move_head_clamps_angles defaultReachyConfig 10 100 3 2 (some (1/2))
    (by norm_num [defaultReachyConfig]) (by norm_num [defaultReachyConfig])
    (by norm_num [defaultReachyConfig])

/-- C10: calling `send_message` or `stream_message` on a client that is not
connected raises `RuntimeError("Not connected to Gateway")` as its first
action — before any identifier is generated, any pending entry is registered
or any frame is sent, so the pending map and all client state are left
untouched. -/
theorem not_connected_raises_before_registration (s : ClientState) (text : String)
    (imagePath : Option String) (h : isConnected s = false) :
    sendMessageStart s text imagePath = .error "Not connected to Gateway" ∧
    streamMessageStart s text = .error "Not connected to Gateway" := by
  constructor <;> simp [sendMessageStart, streamMessageStart, h]

/-- A disconnected client state. -/
def demoDisconnected : ClientState :=
  { demoConnected with connected := false }

/-- Witness for C10 at a concrete disconnected state. -/
theorem not_connected_raises_before_registration_witness :
    sendMessageStart demoDisconnected "hi" none = .error "Not connected to Gateway" ∧
    streamMessageStart demoDisconnected "hi" = .error "Not connected to Gateway" :=
  not_connected_raises_before_registration demoDisconnected "hi" none rfl
